import Mathlib

/-!
Verification development for the Frontend_SAP proctored-assessment client.

This file gives a shallow embedding of the camera resource manager
(`useCameraManager`), the face-detection monitor (`useFaceDetection`),
the face-verification camera initializer (`FaceVerification.initializeCamera`),
and the student service (`studentService.ts`), and proves the spec's
testable properties about them.

Modelling conventions:
- A `MediaStream` is modelled as a `Nat` identifier; stopping all of a
  stream's tracks is recorded by appending its identifier to a `stopped`
  list (the source always stops every track of the stream at once via
  `getTracks().forEach(track => track.stop())`).
- `navigator.mediaDevices.getUserMedia` is modelled by an oracle
  `HwOracle : Constraints → Except CamError Nat`; the constraint objects
  that occur in the source are the preferred set
  (ideal 1280x720, facingMode user) and the minimal set (video: true).
- React state setters (`setStream`, `setError`, `setIsLoading`) become
  fields of a `LocalCameraState` record; the module-level variables
  `currentConsumer` / `streamInstance` become a `GlobalCameraState` record.
- Async functions are modelled by their input/output behaviour; every
  claim proved here only depends on states at call boundaries.
-/

set_option maxHeartbeats 1000000

namespace SAP

/-- Constraint sets passed to `getUserMedia` in the source: the preferred
set (ideal 1280x720, facingMode user, audio false) and the minimal set
(`video: true, audio: false`). -/
inductive Constraints
  | preferred
  | minimal
deriving DecidableEq, Repr

/-- DOMException outcomes of `getUserMedia` distinguished by the source's
catch branches, plus a non-DOMException case. -/
inductive CamError
  | notAllowed
  | notFound
  | notReadable
  | domOther (name : String)
  | nonDom
deriving DecidableEq, Repr

/-- Hardware model: what `getUserMedia` returns for each constraint set. -/
def HwOracle : Type := Constraints → Except CamError Nat

/-- Error messages set by `useCameraManager.requestCamera`'s catch branch
(part_003 lines 57-64). -/
def cameraErrorMessage : CamError → String
  | .notAllowed => "Camera access denied."
  | .notFound => "No camera detected."
  | .notReadable => "Camera is already in use."
  | .domOther name => "Camera error: " ++ name
  | .nonDom => "Unable to access camera."

/-- Module-level lease state of `useCameraManager` (part_003 lines 3-5):
`let currentConsumer: string | null` and `let streamInstance: MediaStream | null`. -/
structure GlobalCameraState where
  currentConsumer : Option String
  streamInstance : Option Nat
deriving DecidableEq, Repr

/-- Per-hook-instance React state of `useCameraManager` (part_003 lines 8-11):
`isLoading`, `error`, `stream`, and the `consumerIdRef` ref. -/
structure LocalCameraState where
  isLoading : Bool
  error : Option String
  stream : Option Nat
  consumerIdRef : Option String
deriving DecidableEq, Repr

/-- Initial module-level state: no consumer, no stream. -/
def initialGlobal : GlobalCameraState := ⟨none, none⟩

/-- Initial hook-local state (part_003 lines 8-11); note `stream` is seeded
from the module-level `streamInstance`, here taken at a fresh start. -/
def initialLocal : LocalCameraState := ⟨false, none, none, none⟩

/-- The app-level camera-in-use error string set at part_003 line 25. -/
def inUseMessage (owner : String) : String :=
  "Camera is currently in use by another feature (" ++ owner ++ ")."

/-- Result of one `requestCamera` call: the returned promise value, the
updated module-level and hook-local states, the constraint sets passed to
`getUserMedia` (in order), and the streams whose tracks were stopped. -/
structure RequestOutcome where
  ret : Option Nat
  glob : GlobalCameraState
  lcl : LocalCameraState
  hwCalls : List Constraints
  stopped : List Nat
deriving DecidableEq, Repr

/-- Shallow embedding of `useCameraManager.requestCamera` (part_003 lines
13-69). Branches in source order: (1) same consumer already holds the
stream: return it and sync local state, no hardware call; (2) a different
consumer holds it: set the in-use error and return null; (3) otherwise set
loading, clear error and local stream, stop any lingering global stream,
then call `getUserMedia` with the preferred constraints once — on success
install the lease and return the stream, on failure clear the lease, set
the mapped error message and return null. The source makes no second
`getUserMedia` call. -/
def requestCamera (hw : HwOracle) (consumerId : String)
    (g : GlobalCameraState) (l : LocalCameraState) : RequestOutcome :=
  if g.currentConsumer = some consumerId ∧ g.streamInstance.isSome then
    { ret := g.streamInstance
      glob := g
      lcl := { l with consumerIdRef := some consumerId, stream := g.streamInstance }
      hwCalls := []
      stopped := [] }
  else if g.currentConsumer.isSome ∧ g.currentConsumer ≠ some consumerId then
    { ret := none
      glob := g
      lcl := { l with
                consumerIdRef := some consumerId
                error := some (inUseMessage (g.currentConsumer.getD "")) }
      hwCalls := []
      stopped := [] }
  else
    match hw Constraints.preferred with
    | Except.ok s =>
      { ret := some s
        glob := { currentConsumer := some consumerId, streamInstance := some s }
        lcl := { l with
                  consumerIdRef := some consumerId
                  isLoading := false
                  error := none
                  stream := some s }
        hwCalls := [Constraints.preferred]
        stopped := g.streamInstance.toList }
    | Except.error e =>
      { ret := none
        glob := { currentConsumer := none, streamInstance := none }
        lcl := { l with
                  consumerIdRef := some consumerId
                  isLoading := false
                  error := some (cameraErrorMessage e)
                  stream := none }
        hwCalls := [Constraints.preferred]
        stopped := g.streamInstance.toList }

/-- Helper: a successful `requestCamera` call leaves the module-level lease
pointing at the calling consumer with the returned stream installed. -/
lemma requestCamera_ret_some (hw : HwOracle) (cid : String)
    (g : GlobalCameraState) (l : LocalCameraState) (s : Nat)
    (h : (requestCamera hw cid g l).ret = some s) :
    (requestCamera hw cid g l).glob.currentConsumer = some cid ∧
    (requestCamera hw cid g l).glob.streamInstance = some s := by
  unfold requestCamera at h ⊢
  by_cases hb1 : g.currentConsumer = some cid ∧ g.streamInstance.isSome
  · rw [if_pos hb1] at h ⊢
    exact ⟨hb1.1, h⟩
  · rw [if_neg hb1] at h ⊢
    by_cases hb2 : g.currentConsumer.isSome ∧ g.currentConsumer ≠ some cid
    · rw [if_pos hb2] at h
      simp at h
    · rw [if_neg hb2] at h ⊢
      cases hp : hw Constraints.preferred with
      | ok s2 =>
        rw [hp] at h
        exact ⟨rfl, h⟩
      | error e =>
        rw [hp] at h
        simp at h

/-- Helper: the denial branch of `requestCamera` (part_003 lines 23-27),
taken whenever some different consumer currently holds the lease. -/
lemma requestCamera_denied (hw : HwOracle) (cid : String)
    (g : GlobalCameraState) (l : LocalCameraState)
    (h1 : g.currentConsumer.isSome) (h2 : g.currentConsumer ≠ some cid) :
    requestCamera hw cid g l =
      { ret := none
        glob := g
        lcl := { l with
                  consumerIdRef := some cid
                  error := some (inUseMessage (g.currentConsumer.getD "")) }
        hwCalls := []
        stopped := [] } := by
  unfold requestCamera
  rw [if_neg, if_pos ⟨h1, h2⟩]
  rintro ⟨hEq, -⟩
  exact h2 hEq

/-- C1: exclusivity of the camera lease. If `requestCamera A` succeeded
(returning stream `s`) and, with no intervening release, `requestCamera B`
is called with `A ≠ B`, then the second call returns null, sets the
app-level camera-in-use error on the caller's state, leaves the
module-level lease (`currentConsumer` and `streamInstance`) unchanged, and
makes no hardware call. -/
theorem requestCamera_exclusive
    (hw1 hw2 : HwOracle) (A B : String) (g : GlobalCameraState)
    (lA lB : LocalCameraState) (s : Nat)
    (hAB : A ≠ B)
    (h1 : (requestCamera hw1 A g lA).ret = some s) :
    (requestCamera hw2 B (requestCamera hw1 A g lA).glob lB).ret = none ∧
    (requestCamera hw2 B (requestCamera hw1 A g lA).glob lB).glob
      = (requestCamera hw1 A g lA).glob ∧
    (requestCamera hw2 B (requestCamera hw1 A g lA).glob lB).lcl.error
      = some (inUseMessage A) ∧
    (requestCamera hw2 B (requestCamera hw1 A g lA).glob lB).hwCalls = [] := by
  obtain ⟨hc, hs⟩ := requestCamera_ret_some hw1 A g lA s h1
  have hden := requestCamera_denied hw2 B (requestCamera hw1 A g lA).glob lB
    (by rw [hc]; rfl)
    (by rw [hc]; intro hEq; exact hAB (Option.some.inj hEq))
  rw [hden, hc]
  exact ⟨rfl, rfl, rfl, rfl⟩

/-- Witness for C1 at a concrete input: consumer `faceDetection` acquires
stream 4, then consumer `faceRegistration` is denied with the in-use
error and the lease is unchanged. -/
theorem requestCamera_exclusive_witness :
    (requestCamera (fun _ => Except.ok 4) "faceDetection" initialGlobal initialLocal).ret
      = some 4 ∧
    (requestCamera (fun _ => Except.ok 9) "faceRegistration"
      (requestCamera (fun _ => Except.ok 4) "faceDetection" initialGlobal initialLocal).glob
      initialLocal).ret = none := by
  refine ⟨rfl, ?_⟩
  exact (requestCamera_exclusive (fun _ => Except.ok 4) (fun _ => Except.ok 9)
    "faceDetection" "faceRegistration" initialGlobal initialLocal initialLocal 4
    (by decide) rfl).1

/-- Helper: the idempotent branch of `requestCamera` (part_003 lines 17-20),
taken when the calling consumer already holds the stream. -/
lemma requestCamera_same (hw : HwOracle) (cid : String)
    (g : GlobalCameraState) (l : LocalCameraState)
    (h1 : g.currentConsumer = some cid) (h2 : g.streamInstance.isSome) :
    requestCamera hw cid g l =
      { ret := g.streamInstance
        glob := g
        lcl := { l with consumerIdRef := some cid, stream := g.streamInstance }
        hwCalls := []
        stopped := [] } := by
  unfold requestCamera
  rw [if_pos ⟨h1, h2⟩]

/-- Helper: the acquisition branch of `requestCamera` when no consumer holds
the lease and the hardware grants the preferred-constraint request. -/
lemma requestCamera_fresh_ok (hw : HwOracle) (cid : String)
    (g : GlobalCameraState) (l : LocalCameraState) (s : Nat)
    (hfree : g.currentConsumer = none)
    (hp : hw Constraints.preferred = Except.ok s) :
    requestCamera hw cid g l =
      { ret := some s
        glob := { currentConsumer := some cid, streamInstance := some s }
        lcl := { l with
                  consumerIdRef := some cid
                  isLoading := false
                  error := none
                  stream := some s }
        hwCalls := [Constraints.preferred]
        stopped := g.streamInstance.toList } := by
  unfold requestCamera
  rw [if_neg (by simp [hfree]), if_neg (by simp [hfree]), hp]

/-- Helper: the acquisition branch of `requestCamera` when no consumer holds
the lease and the hardware rejects the preferred-constraint request. -/
lemma requestCamera_fresh_error (hw : HwOracle) (cid : String)
    (g : GlobalCameraState) (l : LocalCameraState) (e : CamError)
    (hfree : g.currentConsumer = none)
    (hp : hw Constraints.preferred = Except.error e) :
    requestCamera hw cid g l =
      { ret := none
        glob := { currentConsumer := none, streamInstance := none }
        lcl := { l with
                  consumerIdRef := some cid
                  isLoading := false
                  error := some (cameraErrorMessage e)
                  stream := none }
        hwCalls := [Constraints.preferred]
        stopped := g.streamInstance.toList } := by
  unfold requestCamera
  rw [if_neg (by simp [hfree]), if_neg (by simp [hfree]), hp]

/-- C4: idempotent re-request. Starting from a state with no lease holder,
if `requestCamera A` succeeds returning stream `s`, then a second
`requestCamera A` on the resulting states (no intervening release) returns
the same stream `s`, passes no constraint set to `getUserMedia`, and the
whole pair of calls performed exactly one hardware acquisition. -/
theorem requestCamera_idempotent
    (hw1 hw2 : HwOracle) (A : String) (g : GlobalCameraState)
    (l1 : LocalCameraState) (s : Nat)
    (hfresh : g.currentConsumer = none)
    (h1 : (requestCamera hw1 A g l1).ret = some s) :
    (requestCamera hw2 A (requestCamera hw1 A g l1).glob
      (requestCamera hw1 A g l1).lcl).ret = some s ∧
    (requestCamera hw2 A (requestCamera hw1 A g l1).glob
      (requestCamera hw1 A g l1).lcl).hwCalls = [] ∧
    (requestCamera hw1 A g l1).hwCalls = [Constraints.preferred] := by
  cases hp : hw1 Constraints.preferred with
  | error e =>
    rw [requestCamera_fresh_error hw1 A g l1 e hfresh hp] at h1
    simp at h1
  | ok s2 =>
    have e1 := requestCamera_fresh_ok hw1 A g l1 s2 hfresh hp
    rw [e1] at h1
    have hs : s2 = s := Option.some.inj h1
    subst hs
    rw [e1]
    dsimp only
    rw [requestCamera_same hw2 A
      { currentConsumer := some A, streamInstance := some s2 } _ rfl rfl]
    exact ⟨rfl, rfl, rfl⟩

/-- Witness for C4 at a concrete input: `faceDetection` acquires stream 4
from a fresh state, re-requests, gets stream 4 again with no further
hardware call. -/
theorem requestCamera_idempotent_witness :
    (requestCamera (fun _ => Except.ok 4) "faceDetection"
      (requestCamera (fun _ => Except.ok 4) "faceDetection" initialGlobal initialLocal).glob
      (requestCamera (fun _ => Except.ok 4) "faceDetection" initialGlobal initialLocal).lcl).ret
      = some 4 ∧
    (requestCamera (fun _ => Except.ok 4) "faceDetection"
      (requestCamera (fun _ => Except.ok 4) "faceDetection" initialGlobal initialLocal).glob
      (requestCamera (fun _ => Except.ok 4) "faceDetection" initialGlobal initialLocal).lcl).hwCalls
      = [] := by
  have h := requestCamera_idempotent (fun _ => Except.ok 4) (fun _ => Except.ok 4)
    "faceDetection" initialGlobal initialLocal 4 rfl rfl
  exact ⟨h.1, h.2.1⟩

/-- Result of one `releaseCamera` call: updated module-level and hook-local
states plus the streams whose tracks were stopped. -/
structure ReleaseOutcome where
  glob : GlobalCameraState
  lcl : LocalCameraState
  stopped : List Nat
deriving DecidableEq, Repr

/-- Shallow embedding of `useCameraManager.releaseCamera` (part_003 lines
71-88). If the calling consumer holds the lease and a stream exists, stop
every track, clear the module-level lease, and reset the caller's local
stream/error/loading state. Otherwise, if this hook instance had asked for
the camera under this id (`consumerIdRef.current === consumerId`), only
reset the local state. Otherwise do nothing. -/
def releaseCamera (consumerId : String)
    (g : GlobalCameraState) (l : LocalCameraState) : ReleaseOutcome :=
  if g.currentConsumer = some consumerId ∧ g.streamInstance.isSome then
    { glob := { currentConsumer := none, streamInstance := none }
      lcl := { l with stream := none, error := none, isLoading := false }
      stopped := g.streamInstance.toList }
  else if l.consumerIdRef = some consumerId then
    { glob := g
      lcl := { l with stream := none, error := none, isLoading := false }
      stopped := [] }
  else
    { glob := g, lcl := l, stopped := [] }

/-- Helper: the owner branch of `releaseCamera` (part_003 lines 73-80). -/
lemma releaseCamera_owner (cid : String)
    (g : GlobalCameraState) (l : LocalCameraState) (s : Nat)
    (h1 : g.currentConsumer = some cid) (h2 : g.streamInstance = some s) :
    releaseCamera cid g l =
      { glob := { currentConsumer := none, streamInstance := none }
        lcl := { l with stream := none, error := none, isLoading := false }
        stopped := [s] } := by
  unfold releaseCamera
  rw [if_pos ⟨h1, by rw [h2]; rfl⟩, h2]
  rfl

/-- Helper: the non-owner branch of `releaseCamera` (part_003 lines 81-87),
taken when the caller does not hold the lease but had requested under this
id: global state untouched, local state reset, no track stopped. -/
lemma releaseCamera_nonowner (cid : String)
    (g : GlobalCameraState) (l : LocalCameraState)
    (h1 : g.currentConsumer ≠ some cid) (h2 : l.consumerIdRef = some cid) :
    releaseCamera cid g l =
      { glob := g
        lcl := { l with stream := none, error := none, isLoading := false }
        stopped := [] } := by
  unfold releaseCamera
  rw [if_neg, if_pos h2]
  rintro ⟨hc, -⟩
  exact h1 hc

/-- C5: release semantics. Called by the current lease holder,
`releaseCamera` stops every track of the held stream (modelled as stopping
that stream exactly once), clears the module-level lease, and clears the
caller's stream/error/loading state. Called by a consumer that does not
hold the lease (or after the lease was already released) but had requested
under this id, it leaves the module-level lease and stream untouched and
stops no track, while still resetting that caller's local
stream/error/loading state. -/
theorem releaseCamera_semantics
    (g : GlobalCameraState) (l : LocalCameraState) (cid : String) (s : Nat) :
    (g.currentConsumer = some cid → g.streamInstance = some s →
      releaseCamera cid g l =
        { glob := { currentConsumer := none, streamInstance := none }
          lcl := { l with stream := none, error := none, isLoading := false }
          stopped := [s] }) ∧
    (g.currentConsumer ≠ some cid → l.consumerIdRef = some cid →
      releaseCamera cid g l =
        { glob := g
          lcl := { l with stream := none, error := none, isLoading := false }
          stopped := [] }) :=
  ⟨releaseCamera_owner cid g l s, releaseCamera_nonowner cid g l⟩

/-- Witness for C5 at concrete inputs: the owner's release stops stream 3
and clears the lease; a non-owner's release leaves the global state alone
and resets only the local state. -/
theorem releaseCamera_semantics_witness :
    releaseCamera "faceDetection"
      { currentConsumer := some "faceDetection", streamInstance := some 3 }
      { isLoading := true, error := some "x", stream := some 3,
        consumerIdRef := some "faceDetection" } =
      { glob := { currentConsumer := none, streamInstance := none }
        lcl := { isLoading := false, error := none, stream := none,
                 consumerIdRef := some "faceDetection" }
        stopped := [3] } ∧
    releaseCamera "faceRegistration"
      { currentConsumer := some "faceDetection", streamInstance := some 3 }
      { isLoading := true, error := some "y", stream := none,
        consumerIdRef := some "faceRegistration" } =
      { glob := { currentConsumer := some "faceDetection", streamInstance := some 3 }
        lcl := { isLoading := false, error := none, stream := none,
                 consumerIdRef := some "faceRegistration" }
        stopped := [] } := by
  constructor
  · exact (releaseCamera_semantics _ _ "faceDetection" 3).1 rfl rfl
  · exact (releaseCamera_semantics _ _ "faceRegistration" 3).2 (by decide) rfl

/-- Consumer id used by `useFaceDetection` (part_002 line 46). -/
def faceDetectionHookId : String := "faceDetection"

/-- Result of a consumer's teardown path: the `releaseCamera` invocations
made (consumer ids, in order), the resulting states, and the streams whose
tracks were stopped. -/
structure TeardownOutcome where
  releaseCalls : List String
  glob : GlobalCameraState
  lcl : LocalCameraState
  stopped : List Nat
deriving DecidableEq, Repr

/-- Shallow embedding of the unmount path of a `useFaceDetection` consumer.
Two cleanup functions can run: (1) the `useFaceDetection` cleanup effect
(part_002 lines 49-58), which stops the MediaPipe frame loop and calls
`releaseCamera(hookId)`; (2) the `useCameraManager` internal unmount effect
(part_003 lines 91-99), whose body ran once at mount and captured
`id := consumerIdRef.current` at that moment — its cleanup calls
`releaseCamera(id)` only when the captured id is non-null. Because
`consumerIdRef` is only assigned inside `requestCamera`, which runs in a
later effect, the captured id is null in every actual mount, which the
theorem states as the hypothesis `capturedId = none`. -/
def faceDetectionTeardown (capturedId : Option String)
    (g : GlobalCameraState) (l : LocalCameraState) : TeardownOutcome :=
  match capturedId with
  | none =>
    { releaseCalls := [faceDetectionHookId]
      glob := (releaseCamera faceDetectionHookId g l).glob
      lcl := (releaseCamera faceDetectionHookId g l).lcl
      stopped := (releaseCamera faceDetectionHookId g l).stopped }
  | some i =>
    { releaseCalls := [faceDetectionHookId, i]
      glob := (releaseCamera i (releaseCamera faceDetectionHookId g l).glob
        (releaseCamera faceDetectionHookId g l).lcl).glob
      lcl := (releaseCamera i (releaseCamera faceDetectionHookId g l).glob
        (releaseCamera faceDetectionHookId g l).lcl).lcl
      stopped := (releaseCamera faceDetectionHookId g l).stopped ++
        (releaseCamera i (releaseCamera faceDetectionHookId g l).glob
          (releaseCamera faceDetectionHookId g l).lcl).stopped }

/-- C3: guaranteed release on unmount. If the `faceDetection` consumer holds
the lease on stream `s` and its unmount path runs (with the manager's
internal effect having captured a null id at mount, as it always does),
then `releaseCamera` was invoked for that consumer exactly once — by the
hook's cleanup effect, without the consuming component calling it — the
held stream's tracks were stopped exactly once, the lease is cleared, and a
subsequent `requestCamera` from a different consumer `B` succeeds whenever
the hardware grants it. -/
theorem faceDetection_teardown_releases_once
    (capturedId : Option String) (g : GlobalCameraState)
    (l lB : LocalCameraState) (s s2 : Nat) (hw : HwOracle) (B : String)
    (hcap : capturedId = none)
    (hown : g.currentConsumer = some faceDetectionHookId)
    (hstream : g.streamInstance = some s)
    (hp : hw Constraints.preferred = Except.ok s2) :
    (faceDetectionTeardown capturedId g l).releaseCalls.count faceDetectionHookId = 1 ∧
    (faceDetectionTeardown capturedId g l).glob
      = { currentConsumer := none, streamInstance := none } ∧
    (faceDetectionTeardown capturedId g l).stopped = [s] ∧
    (requestCamera hw B (faceDetectionTeardown capturedId g l).glob lB).ret
      = some s2 := by
  subst hcap
  have e1 := releaseCamera_owner faceDetectionHookId g l s hown hstream
  unfold faceDetectionTeardown
  rw [e1]
  refine ⟨by simp, rfl, rfl, ?_⟩
  dsimp only
  rw [requestCamera_fresh_ok hw B
    { currentConsumer := none, streamInstance := none } lB s2 rfl hp]

/-- Witness for C3 at a concrete input: `faceDetection` holds stream 3, the
teardown path runs, and `faceRegistration` then acquires stream 8. -/
theorem faceDetection_teardown_releases_once_witness :
    (faceDetectionTeardown none
      { currentConsumer := some "faceDetection", streamInstance := some 3 }
      initialLocal).releaseCalls.count "faceDetection" = 1 ∧
    (requestCamera (fun _ => Except.ok 8) "faceRegistration"
      (faceDetectionTeardown none
        { currentConsumer := some "faceDetection", streamInstance := some 3 }
        initialLocal).glob
      initialLocal).ret = some 8 := by
  have h := faceDetection_teardown_releases_once none
    { currentConsumer := some "faceDetection", streamInstance := some 3 }
    initialLocal initialLocal 3 8 (fun _ => Except.ok 8) "faceRegistration"
    rfl rfl rfl rfl
  exact ⟨h.1, h.2.2.2⟩

/-! Fallback acquisition (C2). The camera manager's `requestCamera` makes a
single `getUserMedia` call with the preferred constraints and returns null
on failure (part_003 lines 41-68); it never retries. The minimal-constraint
fallback exists only in the `FaceVerification` component's
`initializeCamera` (part_001 lines 473-536), which does not go through the
camera manager at all. -/

/-- Local state of the `FaceVerification` component (part_001 lines
448-456): the `streamRef` ref, the error message and the status message. -/
structure FVState where
  streamRef : Option Nat
  errorMessage : Option String
  statusMessage : String
deriving DecidableEq, Repr

/-- Error messages set by `FaceVerification.initializeCamera`'s catch branch
(part_001 lines 518-535). -/
def fvErrorMessage : CamError → String
  | .notAllowed =>
    "Camera access denied. Please grant camera permissions and refresh the page."
  | .notFound => "No camera detected. Please connect a camera and try again."
  | .notReadable =>
    "Camera is already in use by another application. Please close other applications using the camera and try again."
  | .domOther name =>
    "Camera error: " ++ name ++ ". Please ensure your camera is working properly."
  | .nonDom => "Unable to access camera. Please ensure camera permissions are granted."

/-- Result of `FaceVerification.initializeCamera`: updated component state
and the constraint sets passed to `getUserMedia`, in order. -/
structure FVOutcome where
  st : FVState
  hwCalls : List Constraints
deriving DecidableEq, Repr

/-- Shallow embedding of `FaceVerification.initializeCamera` (part_001 lines
473-536): clear the error, try `getUserMedia` with the ideal constraints;
on failure retry with the basic constraints (`video: true`); if both fail,
set the mapped error message. -/
def initializeCamera (hw : HwOracle) (s : FVState) : FVOutcome :=
  match hw Constraints.preferred with
  | Except.ok st =>
    { st := { s with
               streamRef := some st
               errorMessage := none
               statusMessage := "Camera initialized. Ready to verify." }
      hwCalls := [Constraints.preferred] }
  | Except.error _ =>
    match hw Constraints.minimal with
    | Except.ok st =>
      { st := { s with
                 streamRef := some st
                 errorMessage := none
                 statusMessage := "Camera initialized with basic settings. Ready to verify." }
        hwCalls := [Constraints.preferred, Constraints.minimal] }
    | Except.error e =>
      { st := { s with errorMessage := some (fvErrorMessage e) }
        hwCalls := [Constraints.preferred, Constraints.minimal] }

/-- Hardware oracle on which the preferred constraints fail with a
device-busy error but the minimal constraints would succeed with stream 5. -/
def hwPreferredFails : HwOracle := fun c =>
  match c with
  | Constraints.preferred => Except.error CamError.notReadable
  | Constraints.minimal => Except.ok 5

/-- Counterexample to C2 as stated: against a hardware oracle on which the
preferred constraint set fails while the minimal constraint set would
succeed with stream 5, `requestCamera` (from the no-lease initial state)
returns null after passing only the preferred constraint set to
`getUserMedia` — it performs no minimal-constraint retry even though one
would have succeeded. -/
theorem requestCamera_no_fallback_counterexample :
    (requestCamera hwPreferredFails faceDetectionHookId
      initialGlobal initialLocal).ret = none ∧
    (requestCamera hwPreferredFails faceDetectionHookId
      initialGlobal initialLocal).hwCalls = [Constraints.preferred] ∧
    hwPreferredFails Constraints.minimal = Except.ok 5 := by
  refine ⟨?_, ?_, rfl⟩ <;>
    rw [requestCamera_fresh_error hwPreferredFails faceDetectionHookId
      initialGlobal initialLocal CamError.notReadable rfl rfl]

/-- C2 (amended): when no lease exists and the preferred-constraint
acquisition fails, `useCameraManager.requestCamera` gives up after that
single `getUserMedia` call and returns null — it performs no
minimal-constraint retry. The minimal-constraint fallback lives only in
`FaceVerification.initializeCamera`, which on preferred-constraint failure
retries with the minimal constraint set and succeeds whenever the hardware
grants that retry. -/
theorem fallback_only_in_initializeCamera
    (hw : HwOracle) (cid : String) (l : LocalCameraState) (fv : FVState)
    (e : CamError) (s : Nat)
    (hp : hw Constraints.preferred = Except.error e)
    (hm : hw Constraints.minimal = Except.ok s) :
    (requestCamera hw cid initialGlobal l).ret = none ∧
    (requestCamera hw cid initialGlobal l).hwCalls = [Constraints.preferred] ∧
    (initializeCamera hw fv).hwCalls = [Constraints.preferred, Constraints.minimal] ∧
    (initializeCamera hw fv).st.streamRef = some s := by
  rw [requestCamera_fresh_error hw cid initialGlobal l e rfl hp]
  unfold initializeCamera
  rw [hp, hm]
  exact ⟨rfl, rfl, rfl, rfl⟩

/-- Witness for amended C2 at the concrete oracle `hwPreferredFails`. -/
theorem fallback_only_in_initializeCamera_witness :
    (requestCamera hwPreferredFails "faceDetection" initialGlobal initialLocal).ret
      = none ∧
    (initializeCamera hwPreferredFails ⟨none, none, "x"⟩).st.streamRef = some 5 := by
  have h := fallback_only_in_initializeCamera hwPreferredFails "faceDetection"
    initialLocal ⟨none, none, "x"⟩ CamError.notReadable 5 rfl rfl
  exact ⟨h.1, h.2.2.2⟩

/-! Partial-acquisition rollback (C6). -/

/-- Result of `useFaceDetection.startMonitoring`: the returned boolean and
the camera states it leaves behind. -/
structure MonitorOutcome where
  success : Bool
  glob : GlobalCameraState
  lcl : LocalCameraState
deriving DecidableEq, Repr

/-- Shallow embedding of `useFaceDetection.startMonitoring` (part_002 lines
137-148) together with the failure behaviour of `setupFaceMesh` (lines
71-135): if already monitoring, return true; otherwise request the camera
(returning false if that fails); then run detector setup, abstracted by
`setupSucceeds`. On setup success the camera loop starts and monitoring is
true. On setup failure (early-exit guard or the catch branch at lines
130-134) the function only sets `isMonitoring` to false and returns false —
neither path calls `releaseCamera`, so the just-acquired lease and stream
are left in place. -/
def startMonitoring (hw : HwOracle) (setupSucceeds : Bool) (isMonitoring : Bool)
    (g : GlobalCameraState) (l : LocalCameraState) : MonitorOutcome :=
  if isMonitoring then { success := true, glob := g, lcl := l }
  else
    match (requestCamera hw faceDetectionHookId g l).ret with
    | none =>
      { success := false
        glob := (requestCamera hw faceDetectionHookId g l).glob
        lcl := (requestCamera hw faceDetectionHookId g l).lcl }
    | some _ =>
      { success := setupSucceeds
        glob := (requestCamera hw faceDetectionHookId g l).glob
        lcl := (requestCamera hw faceDetectionHookId g l).lcl }

/-- Hardware oracle that always grants stream 7. -/
def hwGrants7 : HwOracle := fun _ => Except.ok 7

/-- C6, evaluated at the failing input: starting from the no-lease state
with hardware granting stream 7, when camera acquisition succeeds but
detector (FaceMesh) initialization fails, `startMonitoring` returns false
while the lease is still held by `faceDetection` and stream 7 is still
installed (its tracks were never stopped) — the acquired stream is left
held, not released as the claim requires. -/
theorem startMonitoring_setup_failure_leaks_stream :
    (startMonitoring hwGrants7 false false initialGlobal initialLocal).success
      = false ∧
    (startMonitoring hwGrants7 false false initialGlobal initialLocal).glob
      = { currentConsumer := some faceDetectionHookId, streamInstance := some 7 } := by
  have e1 := requestCamera_fresh_ok hwGrants7 faceDetectionHookId
    initialGlobal initialLocal 7 rfl rfl
  unfold startMonitoring
  rw [if_neg (by simp), e1]
  exact ⟨rfl, rfl⟩

/-! Frame sampler / inference driver (C7). The `onFrame` handler installed
by `setupFaceMesh` (part_002 lines 109-124) guards every tick with
`isProcessingRef`: a tick is processed only when `isProcessingRef.current`
is false (and the video element is ready), in which case the flag is set,
one `faceMeshRef.send` call is issued, and the flag is cleared in the
`finally` block when that inference completes. -/

/-- State of the frame loop: the `isProcessingRef` flag, the number of
inference calls currently in flight, and the total number of
`faceMeshRef.send` calls issued so far. -/
structure SamplerState where
  isProcessing : Bool
  inflight : Nat
  sendCalls : Nat
deriving DecidableEq, Repr

/-- Events of the frame loop: a frame tick (with the readiness of the video
element and detector folded into `ready`), or the completion of an
in-flight inference (the `finally` block). -/
inductive FrameEvent
  | tick (ready : Bool)
  | finish
deriving DecidableEq, Repr

/-- Initial sampler state: not processing, nothing in flight, no calls. -/
def samplerInit : SamplerState := ⟨false, 0, 0⟩

/-- One step of the `onFrame` discipline (part_002 lines 110-121): a tick
with the processing flag set (or the video not ready) is skipped entirely;
otherwise the flag is set and one inference call is issued. A completion
clears the flag and retires the in-flight inference. -/
def samplerStep (s : SamplerState) (e : FrameEvent) : SamplerState :=
  match e with
  | FrameEvent.tick ready =>
    if s.isProcessing = false ∧ ready = true then
      { isProcessing := true, inflight := s.inflight + 1, sendCalls := s.sendCalls + 1 }
    else s
  | FrameEvent.finish =>
    if 0 < s.inflight then
      { s with isProcessing := false, inflight := s.inflight - 1 }
    else s

/-- Run of the frame loop over a sequence of events from the initial state. -/
def samplerRun (es : List FrameEvent) : SamplerState :=
  es.foldl samplerStep samplerInit

/-- Invariant tying the processing flag to the in-flight count. -/
def SamplerInv (s : SamplerState) : Prop :=
  s.inflight = if s.isProcessing then 1 else 0

/-- Helper: every sampler step preserves the flag/in-flight invariant. -/
lemma samplerStep_inv (s : SamplerState) (e : FrameEvent)
    (h : SamplerInv s) : SamplerInv (samplerStep s e) := by
  unfold SamplerInv at h ⊢
  cases e with
  | tick ready =>
    unfold samplerStep
    dsimp only
    by_cases hc : s.isProcessing = false ∧ ready = true
    · rw [if_pos hc]
      have h0 : s.inflight = 0 := by rw [h, hc.1]; simp
      simp [h0]
    · rw [if_neg hc]
      exact h
  | finish =>
    unfold samplerStep
    dsimp only
    by_cases hc : 0 < s.inflight
    · rw [if_pos hc]
      have h1 : s.inflight ≤ 1 := by rw [h]; split <;> omega
      simp
      omega
    · rw [if_neg hc]
      exact h

/-- Helper: the invariant holds after any run of the frame loop. -/
lemma samplerRun_inv (es : List FrameEvent) : SamplerInv (samplerRun es) := by
  have hgen : ∀ (es : List FrameEvent) (s : SamplerState),
      SamplerInv s → SamplerInv (es.foldl samplerStep s) := by
    intro es
    induction es with
    | nil => intro s hs; exact hs
    | cons e es ih =>
      intro s hs
      exact ih (samplerStep s e) (samplerStep_inv s e hs)
  exact hgen es samplerInit rfl

/-- C7: at most one inference in flight. Over every sequence of frame ticks
and inference completions, the number of in-flight `faceMeshRef.send` calls
never exceeds one — no two inference calls of a session overlap — and a
tick that arrives while the processing flag is set leaves the state
untouched: it is skipped and issues no detector call. -/
theorem sampler_at_most_one_inflight :
    (∀ es : List FrameEvent, (samplerRun es).inflight ≤ 1) ∧
    (∀ (n m : Nat) (r : Bool),
      samplerStep ⟨true, n, m⟩ (FrameEvent.tick r) = ⟨true, n, m⟩) := by
  constructor
  · intro es
    have h := samplerRun_inv es
    unfold SamplerInv at h
    rw [h]
    split <;> omega
  · intro n m r
    unfold samplerStep
    dsimp only
    rw [if_neg]
    rintro ⟨hc, -⟩
    exact Bool.noConfusion hc

/-! Violation debounce state machine (C8).

Modelled from the spec: the per-violation-kind debounce/cooldown state
machine of the violation heuristics engine. The source under src ships its
configuration constants (`LOOKING_AWAY_DURATION_MS = 1000`,
`COOLDOWN_PERIOD_MS = 10000`, part_002 lines 9-19) and the hook that owns
it, but the body of the `onResults` callback that implements the machine is
elided (part_002 line 107), so the transitions are modelled from the
spec's §4.3: INACTIVE moves to ACCUMULATING (recording the start time)
when the condition becomes active; ACCUMULATING falls back to INACTIVE if
the condition clears before the minimum sustained duration; ACCUMULATING
reaches CONFIRMED once the condition has been continuously active for at
least the sustained duration, which fires exactly one report (a call to
the reporting service plus the `onViolationDetected` callback, counted
together in `reports`) and enters COOLDOWN; COOLDOWN returns to INACTIVE
once the cooldown window elapses. -/

/-- Debounce phase of one violation kind. `CONFIRMED` is transient — the
report fires and the machine enters cooldown in the same frame — so it does
not appear as a resting phase. -/
inductive TrackPhase
  | inactive
  | accumulating (startMs : Nat)
  | cooldown (sinceMs : Nat)
deriving DecidableEq, Repr

/-- Per-kind tracking state: the phase and the number of reports fired
(each report is one reporting-service call plus one callback invocation). -/
structure TrackState where
  phase : TrackPhase
  reports : Nat
deriving DecidableEq, Repr

/-- Sustained-duration threshold before a violation is confirmed
(part_002 line 12). -/
def LOOKING_AWAY_DURATION_MS : Nat := 1000

/-- Cooldown window between successive reports of one kind
(part_002 line 13). -/
def COOLDOWN_PERIOD_MS : Nat := 10000

/-- One frame of the debounce/cooldown machine for one violation kind:
`active` is whether the condition holds this frame, `nowMs` the frame
timestamp. -/
def violationStep (sustainMs cooldownMs : Nat) (s : TrackState)
    (active : Bool) (nowMs : Nat) : TrackState :=
  match s.phase with
  | TrackPhase.inactive =>
    if active then { s with phase := TrackPhase.accumulating nowMs } else s
  | TrackPhase.accumulating startMs =>
    if active = false then { s with phase := TrackPhase.inactive }
    else if sustainMs ≤ nowMs - startMs then
      { phase := TrackPhase.cooldown nowMs, reports := s.reports + 1 }
    else s
  | TrackPhase.cooldown sinceMs =>
    if cooldownMs ≤ nowMs - sinceMs then { s with phase := TrackPhase.inactive }
    else s

/-- Run of the debounce machine over a list of (active, timestamp) frames. -/
def violationRun (sustainMs cooldownMs : Nat) (s : TrackState)
    (frames : List (Bool × Nat)) : TrackState :=
  frames.foldl (fun st f => violationStep sustainMs cooldownMs st f.1 f.2) s

/-- Helper: while every active frame is still within the sustained-duration
window of the accumulation start, the machine stays in the same
accumulating phase and fires no report. -/
lemma violationRun_accumulating (sustainMs cooldownMs t0 n : Nat)
    (ts : List Nat) (hts : ∀ t ∈ ts, t - t0 < sustainMs) :
    violationRun sustainMs cooldownMs ⟨TrackPhase.accumulating t0, n⟩
      (ts.map fun t => (true, t)) = ⟨TrackPhase.accumulating t0, n⟩ := by
  induction ts with
  | nil => rfl
  | cons t ts ih =>
    have h1 : t - t0 < sustainMs := hts t (List.mem_cons_self t ts)
    have hstep : violationStep sustainMs cooldownMs
        ⟨TrackPhase.accumulating t0, n⟩ true t = ⟨TrackPhase.accumulating t0, n⟩ := by
      unfold violationStep
      dsimp only
      rw [if_neg (by simp), if_neg (Nat.not_le.mpr h1)]
    simp only [violationRun, List.map_cons, List.foldl_cons]
    rw [hstep]
    exact ih fun t ht => hts t (List.mem_cons_of_mem _ ht)

/-- C8: debounce. For any sustained-duration threshold and cooldown window,
a condition that becomes active at time `t0`, stays active over frames at
times `ts` all within the threshold window (so it is active continuously
for less than the threshold), and then clears, leaves the machine back in
INACTIVE with the report counter unchanged: zero reports are fired — no
reporting-service call and no `onViolationDetected` callback. -/
theorem debounce_short_condition_no_report
    (sustainMs cooldownMs t0 tEnd n : Nat) (ts : List Nat)
    (hts : ∀ t ∈ ts, t - t0 < sustainMs) :
    violationRun sustainMs cooldownMs ⟨TrackPhase.inactive, n⟩
      (((t0 :: ts).map fun t => (true, t)) ++ [(false, tEnd)])
      = ⟨TrackPhase.inactive, n⟩ := by
  have hfirst : violationStep sustainMs cooldownMs
      ⟨TrackPhase.inactive, n⟩ true t0 = ⟨TrackPhase.accumulating t0, n⟩ := by
    unfold violationStep
    dsimp only
    rw [if_pos rfl]
  have hmid := violationRun_accumulating sustainMs cooldownMs t0 n ts hts
  have hlast : violationStep sustainMs cooldownMs
      ⟨TrackPhase.accumulating t0, n⟩ false tEnd = ⟨TrackPhase.inactive, n⟩ := by
    unfold violationStep
    dsimp only
    rw [if_pos rfl]
  unfold violationRun at hmid ⊢
  simp only [List.map_cons, List.foldl_cons, List.foldl_append]
  rw [hfirst, hmid, hlast, List.foldl_nil]

/-- Witness for C8 at the source's default thresholds: a
`faceCount == 0` flicker active at 0 ms and 200 ms that clears at 300 ms —
well under the 1000 ms sustained-duration default — produces zero reports
and returns the machine to INACTIVE. -/
theorem debounce_short_condition_no_report_witness :
    violationRun LOOKING_AWAY_DURATION_MS COOLDOWN_PERIOD_MS
      ⟨TrackPhase.inactive, 0⟩ [(true, 0), (true, 200), (false, 300)]
      = ⟨TrackPhase.inactive, 0⟩ :=
  debounce_short_condition_no_report LOOKING_AWAY_DURATION_MS COOLDOWN_PERIOD_MS
    0 300 0 [200] (by decide)

/-! Violation reporting (C9) and face-verification decision (C10), from
`studentService.ts`. -/

/-- Payload of a webcam monitoring event
(`WebcamEvent`: type, timestamp, details). -/
structure WebcamEvent where
  eventType : String
  timestamp : String
  details : String
deriving DecidableEq, Repr

/-- Acknowledgement returned by the monitoring endpoint. -/
structure MonitorAck where
  received : Bool
  severity : String
  message : String
deriving DecidableEq, Repr

/-- Outcome of a network call: a response, or a transport failure. -/
inductive NetResult (α : Type)
  | ok (a : α)
  | failure (err : String)

/-- Shallow embedding of `studentService.submitWebcamMonitorEvent`
(studentService.ts lines 116-129): post the event; on success return the
response body; on any failure, catch it and throw a fresh
`Error("Failed to submit webcam monitor event")` to the caller
(modelled as `Except.error`). -/
def submitWebcamMonitorEvent (attemptId : String) (ev : WebcamEvent)
    (net : String → WebcamEvent → NetResult MonitorAck) : Except String MonitorAck :=
  match net attemptId ev with
  | NetResult.ok a => Except.ok a
  | NetResult.failure _ => Except.error "Failed to submit webcam monitor event"

/-- Counterexample to C9 as stated: at the concrete input of a network
failure while reporting a `FACE_NOT_DETECTED` event, the report operation
does throw to its caller — `submitWebcamMonitorEvent` produces an error
(`Error("Failed to submit webcam monitor event")`), not a swallowed
success. -/
theorem submitWebcamMonitorEvent_throws_counterexample :
    submitWebcamMonitorEvent "attempt-123"
      { eventType := "FACE_NOT_DETECTED", timestamp := "t0", details := "d" }
      (fun _ _ => NetResult.failure "Network Error")
      = Except.error "Failed to submit webcam monitor event" := rfl

/-- C9 (amended): on every network failure, `submitWebcamMonitorEvent`
rethrows a wrapped `Error("Failed to submit webcam monitor event")` to its
caller rather than swallowing the failure; keeping the assessment-taking
flow unblocked is therefore the calling component's responsibility, not a
guarantee of the service layer. -/
theorem submitWebcamMonitorEvent_rethrows_on_failure
    (attemptId : String) (ev : WebcamEvent) (msg : String) :
    submitWebcamMonitorEvent attemptId ev (fun _ _ => NetResult.failure msg)
      = Except.error "Failed to submit webcam monitor event" := rfl

/-- Response record of the recognition API
(FaceVerificationTypes.ts lines 1-8), before the service adds the
`verified` and `nameMatches` fields. Confidence is modelled as a rational. -/
structure FaceVerificationResponse where
  id : String
  name : String
  confidence : ℚ
  registeredAt : String
deriving DecidableEq, Repr

/-- Response record returned by `verifyFaceIdentity`: the API record plus
the computed `verified` and `nameMatches` fields. -/
structure VerifiedResponse where
  id : String
  name : String
  confidence : ℚ
  registeredAt : String
  verified : Bool
  nameMatches : Bool
deriving DecidableEq, Repr

/-- Model of JavaScript's `String.prototype.toLowerCase()` as used on the
names compared by `verifyFaceIdentity`: lowercase each character. -/
def jsToLowerCase (s : String) : String := String.mk (s.data.map Char.toLower)

/-- Confidence threshold of `verifyFaceIdentity`
(studentService.ts line 156). -/
def CONFIDENCE_THRESHOLD : ℚ := 7/10

/-- Shallow embedding of the decision part of
`studentService.verifyFaceIdentity` (studentService.ts lines 150-165),
applied to the response record (the first element when the API returned an
array): `nameMatches` is the case-insensitive name comparison, and
`verified` holds exactly when confidence meets the threshold and the name
matches. -/
def verifyFaceIdentity (responseData : FaceVerificationResponse)
    (expectedName : String) : VerifiedResponse :=
  { id := responseData.id
    name := responseData.name
    confidence := responseData.confidence
    registeredAt := responseData.registeredAt
    verified := decide (CONFIDENCE_THRESHOLD ≤ responseData.confidence)
      && (jsToLowerCase responseData.name == jsToLowerCase expectedName)
    nameMatches := jsToLowerCase responseData.name == jsToLowerCase expectedName }

/-- C10: face-verification decision rule. For every API response record and
expected name, `verified` is true exactly when the confidence is at least
7/10 and the response's name equals the expected name case-insensitively;
and `nameMatches` equals exactly that case-insensitive comparison,
independent of the confidence. -/
theorem verifyFaceIdentity_decision
    (r : FaceVerificationResponse) (expectedName : String) :
    ((verifyFaceIdentity r expectedName).verified = true ↔
      ((7 : ℚ)/10 ≤ r.confidence ∧
        jsToLowerCase r.name = jsToLowerCase expectedName)) ∧
    (verifyFaceIdentity r expectedName).nameMatches
      = (jsToLowerCase r.name == jsToLowerCase expectedName) := by
  constructor
  · simp [verifyFaceIdentity, CONFIDENCE_THRESHOLD, Bool.and_eq_true,
      decide_eq_true_eq, beq_iff_eq]
  · rfl

/-- Witness for C10 at concrete inputs: confidence 9/10 with a
case-insensitively matching name verifies; confidence 1/2 with the same
name still has `nameMatches = true`. -/
theorem verifyFaceIdentity_decision_witness :
    (verifyFaceIdentity ⟨"u1", "Alice", 9/10, "2024"⟩ "ALICE").verified = true ∧
    (verifyFaceIdentity ⟨"u1", "Alice", 1/2, "2024"⟩ "ALICE").nameMatches = true := by
  constructor
  · exact (verifyFaceIdentity_decision ⟨"u1", "Alice", 9/10, "2024"⟩ "ALICE").1.mpr
      ⟨by norm_num, by decide⟩
  · rw [(verifyFaceIdentity_decision ⟨"u1", "Alice", 1/2, "2024"⟩ "ALICE").2]
    decide

end SAP
